import Mathlib

/-!
Shallow embedding of the medical question-answering / drug-recommendation
pipeline of this repository (`src/models/medical_v3.py`, `src/models/qa.py`,
`src/models/model_service.py`), together with theorems settling the claims
about it.

Modelling conventions:
* Python strings are Lean `String`s; `str.lower()` is a character-wise map,
  `str.strip()` drops whitespace at both ends, and the Python substring test
  `a in b` is the executable scan `substrB`.
* Floating-point scores are modelled as exact rationals (`ℚ`); the scores
  produced by the code are quotients of small integers.
* pandas data frames are lists of records whose optional fields model
  `row.get(col, default)`; a missing column yields `none`.
* The third-party similarity index (FAISS) and the hosted generative model
  are external to the repository; their outcomes enter the embedding as
  parameters (`search : Nat → List Int`, `llm : Except String String`),
  constrained in theorems only by the guarantees the code relies on.
* Python exceptions are modelled with `Except String`; a `try/except` block
  becomes a `match` on the staged body.
-/

namespace MedAI

/-- Python `str.lower()`: character-wise lowercasing. -/
def pyLower (s : String) : String := ⟨s.data.map Char.toLower⟩

/-- Python `str.strip()` on a character list: drop whitespace at both ends. -/
def pyStripL (l : List Char) : List Char :=
  ((l.dropWhile Char.isWhitespace).reverse.dropWhile Char.isWhitespace).reverse

/-- Python `str.strip()`. -/
def pyStrip (s : String) : String := ⟨pyStripL s.data⟩

/-- Does the first character list occur at the head of the second? -/
def startsWithL : List Char → List Char → Bool
  | [], _ => true
  | _ :: _, [] => false
  | a :: as, b :: bs => a == b && startsWithL as bs

/-- Does `needle` occur as a contiguous run anywhere in the haystack? -/
def sublistAtL (needle : List Char) : List Char → Bool
  | [] => needle.isEmpty
  | b :: bs => startsWithL needle (b :: bs) || sublistAtL needle bs

/-- Python substring containment `needle in hay`. -/
def substrB (needle hay : String) : Bool := sublistAtL needle.data hay.data

/-- Python index normalization: a negative index counts from the end. -/
def pyNormIdx (len : Nat) (i : Int) : Int :=
  if i < 0 then (len : Int) + i else i

/-- Python negative-index-aware list subscription `l[i]`; `none` models an
`IndexError`. -/
def pyIndex {α : Type} (l : List α) (i : Int) : Option α :=
  if 0 ≤ pyNormIdx l.length i ∧ pyNormIdx l.length i < (l.length : Int) then
    l.get? (pyNormIdx l.length i).toNat
  else none

/-! ### Data model of `medical_v3.py` -/

/-- One row of the drugs CSV; each field models `row.get(col, default)`,
`none` standing for a missing column. -/
structure DrugRecord where
  drugName : Option String
  indication : Option String
  sideEffects : Option String
  dosage : Option String
  route : Option String
deriving DecidableEq

/-- The loaded drugs table: the rows together with whether the `indication`
column is present (`'indication' in self.drugs_data.columns`). -/
structure DrugsData where
  hasIndicationColumn : Bool
  rows : List DrugRecord
deriving DecidableEq

/-- One row of the NER entities CSV; `none` models a missing column
(the code requires both `entity` and `label` to be present). -/
structure NerRow where
  entity : Option String
  label : Option String
deriving DecidableEq

/-- A knowledge-graph node: its identifier and its string-valued attribute
values (`node_data.values()`). -/
structure KGNode where
  id : String
  attrs : List String
deriving DecidableEq

/-- The loaded knowledge graph: node list and adjacency
(`self.medical_kg.neighbors(node)` keyed by node identifier). -/
structure KnowledgeGraph where
  nodes : List KGNode
  adj : String → List String

/-- The artifacts of `MedicalRecommendationModel` that the recommendation
path reads (the vector index, embeddings, tf-idf matrix and cluster labels
are loaded but never used by `recommend`). -/
structure MedicalRecommendationModel where
  drugsData : Option DrugsData
  nerEntities : Option (List NerRow)
  medicalKG : Option KnowledgeGraph

/-! ### `_extract_medical_entities` -/

/-- Embedding of `_extract_medical_entities` (`medical_v3.py` lines 129-150):
rows with both an `entity` and a `label` column whose lower-cased entity text
occurs in the lower-cased space-joined symptom text; `list(set(...))`
deduplication is modelled by `List.dedup` (CPython set order is unspecified). -/
def extractMedicalEntities (ner : Option (List NerRow)) (symptoms : List String) :
    List String :=
  match ner with
  | none => []
  | some rows =>
    let symptomsText := pyLower (String.intercalate " " symptoms)
    (rows.filterMap fun r =>
      match r.entity, r.label with
      | some e, some _ =>
        let el := pyLower e
        if substrB el symptomsText then some el else none
      | _, _ => none).dedup

/-! ### `_search_knowledge_graph` -/

/-- Node-match test of `_search_knowledge_graph` (`medical_v3.py` lines
170-172): the lower-cased entity occurs in the lower-cased node identifier
or in some lower-cased string-valued attribute. -/
def nodeMatches (entity : String) (nd : KGNode) : Bool :=
  substrB (pyLower entity) (pyLower nd.id) ||
    nd.attrs.any fun v => substrB (pyLower entity) (pyLower v)

/-- Embedding of `_search_knowledge_graph` (`medical_v3.py` lines 152-180):
for each entity, scan all nodes, collect the first 5 neighbors of every
matching node, then deduplicate and keep the first 10. -/
def searchKnowledgeGraph (kg : Option KnowledgeGraph) (entities : List String) :
    List String :=
  match kg with
  | none => []
  | some g =>
    (entities.flatMap fun e =>
      g.nodes.flatMap fun nd =>
        if nodeMatches e nd then (g.adj nd.id).take 5 else []).dedup.take 10

/-! ### `_semantic_search_drugs` -/

/-- Does one symptom match a drug record (`medical_v3.py` lines 212-215)?
The symptom is lower-cased then stripped; the record's indication and drug
name (empty string when the column is absent) are lower-cased. -/
def symptomMatches (d : DrugRecord) (symptom : String) : Bool :=
  let s := pyStrip (pyLower symptom)
  substrB s (pyLower (d.indication.getD "")) ||
    substrB s (pyLower (d.drugName.getD ""))

/-- The `similarity` counter of `_semantic_search_drugs`: how many of the
input symptoms match the record. -/
def matchCount (symptoms : List String) (d : DrugRecord) : Nat :=
  (symptoms.filter (symptomMatches d)).length

/-- One entry of the `matches` list built by `_semantic_search_drugs`. -/
structure DrugMatch where
  drugName : String
  indication : String
  sideEffects : String
  score : ℚ
  dosage : String
  route : String
deriving DecidableEq

/-- The match dictionary built at `medical_v3.py` lines 218-225. -/
def drugMatch (symptoms : List String) (d : DrugRecord) : DrugMatch :=
  { drugName := d.drugName.getD "Unknown"
    indication := d.indication.getD "N/A"
    sideEffects := d.sideEffects.getD "N/A"
    score := (matchCount symptoms d : ℚ) / (symptoms.length : ℚ)
    dosage := d.dosage.getD "Consult physician"
    route := d.route.getD "As prescribed" }

/-- The `matches` list before sorting: only records with a positive
`similarity` receive a score (the division happens inside the
`if similarity > 0` branch). -/
def buildMatches (symptoms : List String) (rows : List DrugRecord) : List DrugMatch :=
  (rows.filter fun d => decide (0 < matchCount symptoms d)).map (drugMatch symptoms)

/-- Comparison used by `matches.sort(key=lambda x: x['score'], reverse=True)`:
`a` may precede `b` when its score is at least `b`'s. -/
def scoreDesc (a b : DrugMatch) : Bool := decide (b.score ≤ a.score)

/-- Embedding of `_semantic_search_drugs` (`medical_v3.py` lines 182-234):
no table or no `indication` column yields `[]`; otherwise the positive-score
matches are sorted by descending score (a stable sort, as in CPython) and
truncated to `top_k` (default 10). -/
def semanticSearchDrugs (data : Option DrugsData) (symptoms : List String)
    (topK : Nat := 10) : List DrugMatch :=
  match data with
  | none => []
  | some t =>
    if t.hasIndicationColumn then
      ((buildMatches symptoms t.rows).mergeSort scoreDesc).take topK
    else []

/-! ### `_add_safety_warnings` -/

/-- The four fixed warning strings attached at `medical_v3.py` lines 248-253. -/
def safetyWarnings : List String :=
  ["⚠️ This is for educational purposes only",
   "👨‍⚕️ Always consult a healthcare professional before taking any medication",
   "📋 Verify dosage and interactions with your doctor",
   "🚫 Do not self-medicate based on these recommendations"]

/-- A recommendation after `_add_safety_warnings`: the match fields plus the
warnings and the confidence bucket. -/
structure Recommendation where
  drugName : String
  indication : String
  sideEffects : String
  score : ℚ
  dosage : String
  route : String
  warnings : List String
  confidence : String
deriving DecidableEq

/-- The confidence bucket of `_add_safety_warnings` (`medical_v3.py` lines
256-261): `score >= 0.8` is High, `score >= 0.5` Medium, else Low. -/
def confidenceOf (score : ℚ) : String :=
  if 4/5 ≤ score then "High" else if 1/2 ≤ score then "Medium" else "Low"

/-- Embedding of `_add_safety_warnings` (`medical_v3.py` lines 236-263). -/
def addSafetyWarnings (recs : List DrugMatch) : List Recommendation :=
  recs.map fun r =>
    { drugName := r.drugName
      indication := r.indication
      sideEffects := r.sideEffects
      score := r.score
      dosage := r.dosage
      route := r.route
      warnings := safetyWarnings
      confidence := confidenceOf r.score }

/-! ### `recommend` -/

/-- The disclaimer of the successful `recommend` result
(`medical_v3.py` lines 297-301). -/
def medicalDisclaimer : String :=
  "🏥 MEDICAL DISCLAIMER: These recommendations are for educational purposes only. Always consult with qualified healthcare professionals before taking any medication. Self-medication can be dangerous and may lead to adverse effects."

/-- The disclaimer of the degraded `recommend` result
(`medical_v3.py` line 312). -/
def errorDisclaimer : String :=
  "An error occurred while processing your request. Please consult a healthcare professional."

/-- The successful `recommend` result dictionary (`medical_v3.py` lines
292-303); the wall-clock timestamp is not modelled. -/
structure RecommendOk where
  medications : List Recommendation
  extractedEntities : List String
  relatedConcepts : List String
  totalFound : Nat
  disclaimer : String

/-- The degraded `recommend` result dictionary (`medical_v3.py` lines
309-314). -/
structure RecommendErr where
  medications : List Recommendation
  error : String
  disclaimer : String
deriving DecidableEq

/-- What `recommend` hands back to its caller: a normal result or the
degraded dictionary built by the `except` handler. An uncaught Python
exception would be a third alternative; `recommend` has no such outcome. -/
inductive RecommendResult where
  | ok : RecommendOk → RecommendResult
  | degraded : RecommendErr → RecommendResult

/-- Embedding of `recommend` on the loaded artifacts (`medical_v3.py` lines
265-305, the `try` body): the four stages composed; the embedded stages are
total, so this is the exception-free execution. -/
def recommend (m : MedicalRecommendationModel) (symptoms : List String) :
    RecommendOk :=
  let entities := extractMedicalEntities m.nerEntities symptoms
  let relatedConcepts := searchKnowledgeGraph m.medicalKG entities
  let recs := addSafetyWarnings (semanticSearchDrugs m.drugsData symptoms)
  { medications := recs
    extractedEntities := entities
    relatedConcepts := relatedConcepts
    totalFound := recs.length
    disclaimer := medicalDisclaimer }

/-- The `try` body of `recommend` with each stage allowed to raise: entity
extraction, graph search, drug scoring, warning attachment, in that order,
any of which may stop the computation with an exception message. -/
def recommendBody (extract : List String → Except String (List String))
    (kgSearch : List String → Except String (List String))
    (search : List String → Except String (List DrugMatch))
    (warn : List DrugMatch → Except String (List Recommendation))
    (symptoms : List String) :
    Except String (List Recommendation × List String × List String) := do
  let entities ← extract symptoms
  let related ← kgSearch entities
  let recs ← search symptoms
  let recs2 ← warn recs
  pure (recs2, entities, related)

/-- Embedding of `recommend`'s `try/except` (`medical_v3.py` lines 278-314):
the staged body runs; an exception anywhere is caught and converted into the
degraded dictionary with an empty medication list, an `error` field and the
error disclaimer. -/
def recommendCaught (extract : List String → Except String (List String))
    (kgSearch : List String → Except String (List String))
    (search : List String → Except String (List DrugMatch))
    (warn : List DrugMatch → Except String (List Recommendation))
    (symptoms : List String) : RecommendResult :=
  match recommendBody extract kgSearch search warn symptoms with
  | Except.ok (recs, entities, related) =>
      RecommendResult.ok
        { medications := recs
          extractedEntities := entities
          relatedConcepts := related
          totalFound := recs.length
          disclaimer := medicalDisclaimer }
  | Except.error e =>
      RecommendResult.degraded
        { medications := [], error := e, disclaimer := errorDisclaimer }

/-! ### Data model and operations of `qa.py` -/

/-- The loaded state of `MedicalQAModel`: whether the sentence encoder and
the similarity index loaded, the decoded document texts (each document is
modelled by the text `_retrieve_context` extracts from it), and whether the
`GROQ_API_KEY` credential was present so a generative client exists. -/
structure MedicalQAModel where
  modelLoaded : Bool
  indexLoaded : Bool
  documents : Option (List String)
  groqClient : Bool

/-- The document-collection loop of `_retrieve_context` (`qa.py` lines
100-109): indices at least the document count are skipped; the rest are
subscripted with Python semantics (a negative index counts from the end and
an out-of-range one raises, modelled by `Except.error`). -/
def collectDocs (docs : List String) : List Int → Except String (List String)
  | [] => Except.ok []
  | idx :: rest =>
    if idx < (docs.length : Int) then
      match pyIndex docs idx with
      | some d =>
        match collectDocs docs rest with
        | Except.ok tail => Except.ok (d :: tail)
        | Except.error e => Except.error e
      | none => Except.error "IndexError"
    else collectDocs docs rest

/-- Embedding of `_retrieve_context` (`qa.py` lines 76-115): `[]` when the
index, the encoder or the documents are missing; otherwise the similarity
index is asked for the `topK` (default 5) nearest vectors — `search` stands
for `self.index.search` — and the matching documents are collected, any
exception yielding `[]`. -/
def retrieveContext (st : MedicalQAModel) (search : Nat → List Int)
    (topK : Nat := 5) : List String :=
  if !st.indexLoaded || !st.modelLoaded || st.documents.isNone then []
  else
    match st.documents with
    | none => []
    | some docs =>
      match collectDocs docs (search topK) with
      | Except.ok ctx => ctx
      | Except.error _ => []

/-- The stub answer returned when no generative client exists
(`qa.py` line 130). -/
def stubAnswer : String :=
  "I apologize, but the AI service is not available at the moment. Please check the configuration."

/-- The apology returned when the generative call raises (`qa.py` line 187). -/
def errorAnswer : String :=
  "I apologize, but I encountered an error while processing your question. Please try again or consult a healthcare professional."

/-- The result dictionary of `_generate_answer`; the timestamp of the
successful branch is not modelled. -/
structure Answer where
  answer : String
  confidence : ℚ
  sources : List String

/-- The `context[:3] if context else []` source truncation of
`_generate_answer`. -/
def takeSources (context : List String) : List String :=
  if context.isEmpty then [] else context.take 3

/-- Embedding of `_generate_answer` (`qa.py` lines 117-190): with no client,
the stub with confidence 0; otherwise the outcome of the one generative call
(`llm`), a raised exception becoming the apology with confidence 0. All
branches cite the first up-to-3 context passages. -/
def generateAnswer (hasClient : Bool) (llm : Except String String)
    (context : List String) : Answer :=
  if !hasClient then
    { answer := stubAnswer, confidence := 0, sources := takeSources context }
  else
    match llm with
    | Except.ok text =>
        { answer := text, confidence := 85/100, sources := takeSources context }
    | Except.error _ =>
        { answer := errorAnswer, confidence := 0, sources := takeSources context }

/-- The educational disclaimer `query` appends to every answer
(`qa.py` lines 211-214). -/
def educationalDisclaimer : String :=
  "\n\n⚠️ **Medical Disclaimer**: This information is for educational purposes only. Always consult with qualified healthcare professionals for medical advice, diagnosis, or treatment. Do not use this information as a substitute for professional medical care."

/-- Embedding of `query` (`qa.py` lines 192-218): retrieve context with the
default `top_k = 5`, generate the answer, append the disclaimer. -/
def query (st : MedicalQAModel) (search : Nat → List Int)
    (llm : Except String String) : Answer :=
  let context := retrieveContext st search
  let result := generateAnswer st.groqClient llm context
  { result with answer := result.answer ++ educationalDisclaimer }

/-! ### `model_service.py` -/

/-- The dictionary returned by `get_health_status`
(`model_service.py` lines 116-122). -/
structure HealthStatus where
  qaModel : String
  recommendationModel : String
  serviceStatus : String
deriving DecidableEq

/-- Embedding of `get_health_status`: the two truthiness checks on the
loaded sub-models. -/
def getHealthStatus (qaLoaded recLoaded : Bool) : HealthStatus :=
  { qaModel := if qaLoaded then "loaded" else "not loaded"
    recommendationModel := if recLoaded then "loaded" else "not loaded"
    serviceStatus := if qaLoaded && recLoaded then "healthy" else "partial" }

/-! ### Helper lemmas on the string primitives -/

theorem startsWithL_append (n t : List Char) : startsWithL n (n ++ t) = true := by
  induction n with
  | nil => rfl
  | cons a as ih => simp [startsWithL, ih]

theorem sublistAtL_of_startsWithL (n hay : List Char) (h : startsWithL n hay = true) :
    sublistAtL n hay = true := by
  cases hay with
  | nil =>
    cases n with
    | nil => rfl
    | cons a as => simp [startsWithL] at h
  | cons b bs => simp [sublistAtL, h]

theorem sublistAtL_cons (n : List Char) (b : Char) (bs : List Char)
    (h : sublistAtL n bs = true) : sublistAtL n (b :: bs) = true := by
  simp [sublistAtL, h]

theorem sublistAtL_of_eq_append (n p t hay : List Char) (he : hay = p ++ (n ++ t)) :
    sublistAtL n hay = true := by
  subst he
  induction p with
  | nil => exact sublistAtL_of_startsWithL n (n ++ t) (startsWithL_append n t)
  | cons x xs ih => exact sublistAtL_cons n x _ ih

theorem pyStripL_decomp (l : List Char) :
    ∃ p t, l = p ++ (pyStripL l ++ t) := by
  have h1 : l.takeWhile Char.isWhitespace ++ l.dropWhile Char.isWhitespace = l :=
    List.takeWhile_append_dropWhile Char.isWhitespace l
  have h2 := List.takeWhile_append_dropWhile Char.isWhitespace
    (l.dropWhile Char.isWhitespace).reverse
  have h4 := congrArg List.reverse h2
  rw [List.reverse_append, List.reverse_reverse] at h4
  refine ⟨l.takeWhile Char.isWhitespace,
    ((l.dropWhile Char.isWhitespace).reverse.takeWhile Char.isWhitespace).reverse, ?_⟩
  simp only [pyStripL]
  rw [h4, h1]

theorem substrB_pyStrip (s : String) : substrB (pyStrip s) s = true := by
  obtain ⟨p, t, h⟩ := pyStripL_decomp s.data
  exact sublistAtL_of_eq_append _ p t _ h

/-! ### Helper lemmas on the drug search -/

theorem matchCount_le (symptoms : List String) (d : DrugRecord) :
    matchCount symptoms d ≤ symptoms.length :=
  List.length_filter_le _ _

theorem length_pos_of_matchCount_pos {symptoms : List String} {d : DrugRecord}
    (h : 0 < matchCount symptoms d) : 0 < symptoms.length :=
  lt_of_lt_of_le h (matchCount_le symptoms d)

theorem mem_semanticSearchDrugs {dd : DrugsData} {symptoms : List String}
    {k : Nat} {r : DrugMatch}
    (hr : r ∈ semanticSearchDrugs (some dd) symptoms k) :
    ∃ d ∈ dd.rows, 0 < matchCount symptoms d ∧ r = drugMatch symptoms d := by
  simp only [semanticSearchDrugs] at hr
  by_cases hc : dd.hasIndicationColumn
  · rw [if_pos hc] at hr
    have h1 : r ∈ (buildMatches symptoms dd.rows).mergeSort scoreDesc :=
      List.take_subset k _ hr
    have h2 : r ∈ buildMatches symptoms dd.rows :=
      (List.mergeSort_perm (buildMatches symptoms dd.rows) scoreDesc).mem_iff.mp h1
    rw [buildMatches, List.mem_map] at h2
    obtain ⟨d, hd, hrd⟩ := h2
    rw [List.mem_filter] at hd
    exact ⟨d, hd.1, by simpa using hd.2, hrd.symm⟩
  · rw [if_neg hc] at hr
    simp at hr

theorem pairwise_mergeSort_scoreDesc (l : List DrugMatch) :
    List.Pairwise (fun a b : DrugMatch => b.score ≤ a.score) (l.mergeSort scoreDesc) := by
  have hs := @List.sorted_mergeSort DrugMatch scoreDesc
    (fun a b c hab hbc => by
      simp only [scoreDesc, decide_eq_true_eq] at hab hbc ⊢
      exact le_trans hbc hab)
    (fun a b => by
      simp only [scoreDesc, Bool.or_eq_true, decide_eq_true_eq]
      exact le_total b.score a.score)
    l
  exact hs.imp fun h => by simpa [scoreDesc] using h

theorem buildMatches_singleton_pos {symptoms : List String} {d : DrugRecord}
    (h : 0 < matchCount symptoms d) :
    buildMatches symptoms [d] = [drugMatch symptoms d] := by
  simp [buildMatches, List.filter, h]

theorem mem_semanticSearchDrugs_singleton {symptoms : List String} {d : DrugRecord}
    (h : 0 < matchCount symptoms d) :
    drugMatch symptoms d ∈ semanticSearchDrugs (some ⟨true, [d]⟩) symptoms 10 := by
  simp [semanticSearchDrugs, buildMatches_singleton_pos h, List.mergeSort_singleton]

theorem symptomMatches_of_indication_eq {s : String} {d : DrugRecord}
    (h : d.indication = some s) : symptomMatches d s = true := by
  simp only [symptomMatches, h, Option.getD_some, Bool.or_eq_true]
  left
  exact substrB_pyStrip (pyLower s)

theorem matchCount_single_eq_one {s : String} {d : DrugRecord}
    (h : d.indication = some s) : matchCount [s] d = 1 := by
  simp [matchCount, List.filter, symptomMatches_of_indication_eq h]

/-! ### Helper lemmas on the QA retrieval -/

theorem pyIndex_isSome_of_valid (docs : List String) (i : Int)
    (hne : docs ≠ []) (hlo : -1 ≤ i) (hhi : i < (docs.length : Int)) :
    ∃ d, pyIndex docs i = some d := by
  have hlen : 0 < docs.length := List.length_pos.mpr hne
  have hlenZ : (1 : Int) ≤ (docs.length : Int) := by exact_mod_cast hlen
  have hcond : 0 ≤ pyNormIdx docs.length i ∧
      pyNormIdx docs.length i < (docs.length : Int) := by
    simp only [pyNormIdx]
    by_cases hneg : i < 0
    · rw [if_pos hneg]
      constructor <;> omega
    · rw [if_neg hneg]
      constructor <;> omega
  have htn : (pyNormIdx docs.length i).toNat < docs.length :=
    (Int.toNat_lt hcond.1).mpr hcond.2
  rw [pyIndex, if_pos hcond]
  exact ⟨_, List.get?_eq_get htn⟩

theorem collectDocs_ok_of_valid (docs : List String) (ids : List Int)
    (hne : docs ≠ [])
    (hvalid : ∀ i ∈ ids, -1 ≤ i ∧ i < (docs.length : Int)) :
    ∃ ctx, collectDocs docs ids = Except.ok ctx ∧ ctx.length = ids.length := by
  induction ids with
  | nil => exact ⟨[], rfl, rfl⟩
  | cons i rest ih =>
    obtain ⟨hlo, hhi⟩ := hvalid i (List.mem_cons_self i rest)
    obtain ⟨ctx, hctx, hlen⟩ := ih fun j hj => hvalid j (List.mem_cons_of_mem i hj)
    obtain ⟨d, hd⟩ := pyIndex_isSome_of_valid docs i hne hlo hhi
    refine ⟨d :: ctx, ?_, by simp [hlen]⟩
    simp only [collectDocs, if_pos hhi, hd, hctx]

theorem collectDocs_length_le (docs : List String) (ids : List Int) (ctx : List String)
    (h : collectDocs docs ids = Except.ok ctx) : ctx.length ≤ ids.length := by
  induction ids generalizing ctx with
  | nil =>
    simp only [collectDocs] at h
    cases h
    simp
  | cons i rest ih =>
    simp only [collectDocs] at h
    by_cases hlt : i < (docs.length : Int)
    · rw [if_pos hlt] at h
      cases hp : pyIndex docs i with
      | some d =>
        rw [hp] at h
        cases hc : collectDocs docs rest with
        | ok tail =>
          rw [hc] at h
          cases h
          have := ih tail hc
          simp only [List.length_cons]
          omega
        | error e => rw [hc] at h; cases h
      | none => rw [hp] at h; cases h
    · rw [if_neg hlt] at h
      have := ih ctx h
      simp only [List.length_cons]
      omega

theorem retrieveContext_eq (st : MedicalQAModel) (search : Nat → List Int)
    (docs : List String) (ctx : List String)
    (hidx : st.indexLoaded = true) (hmod : st.modelLoaded = true)
    (hdocs : st.documents = some docs)
    (hc : collectDocs docs (search 5) = Except.ok ctx) :
    retrieveContext st search = ctx := by
  simp [retrieveContext, hidx, hmod, hdocs, hc]

theorem retrieveContext_length_le (st : MedicalQAModel) (search : Nat → List Int)
    (k : Nat) (hsearch : (search k).length ≤ k) :
    (retrieveContext st search k).length ≤ k := by
  simp only [retrieveContext]
  by_cases hguard : (!st.indexLoaded || !st.modelLoaded || st.documents.isNone) = true
  · rw [if_pos hguard]; simp
  · rw [if_neg hguard]
    cases hdocs : st.documents with
    | none => simp
    | some docs =>
      have hred : (match some docs with
          | none => ([] : List String)
          | some ds =>
            match collectDocs ds (search k) with
            | Except.ok ctx => ctx
            | Except.error _ => []) =
          (match collectDocs docs (search k) with
          | Except.ok ctx => ctx
          | Except.error _ => []) := rfl
      cases hcd : collectDocs docs (search k) with
      | ok ctx =>
        rw [hred, hcd]
        exact le_trans (collectDocs_length_le docs (search k) ctx hcd) hsearch
      | error e => rw [hred, hcd]; simp

theorem takeSources_eq_take (context : List String) :
    takeSources context = context.take 3 := by
  cases context <;> simp [takeSources]

/-! ### Claim theorems -/

/-- C1: for every non-empty symptom list and loaded drug table (with an
indication column), each record returned by the scoring step carries score
matchCount / symptomCount, where matchCount counts the input symptoms that,
lower-cased and trimmed, occur as substrings of the record's (lower-cased)
indication text or drug name; zero-match records are excluded; the output is
the descending-score sort of the surviving records truncated to the top-k,
whose default is 10. -/
theorem semanticSearchDrugs_spec (dd : DrugsData) (symptoms : List String) (k : Nat)
    (hcol : dd.hasIndicationColumn = true) (hne : symptoms ≠ []) :
    (∀ r ∈ semanticSearchDrugs (some dd) symptoms k,
        ∃ d ∈ dd.rows, 0 < matchCount symptoms d ∧ r = drugMatch symptoms d ∧
          r.score = (matchCount symptoms d : ℚ) / (symptoms.length : ℚ)) ∧
    List.Pairwise (fun a b : DrugMatch => b.score ≤ a.score)
      (semanticSearchDrugs (some dd) symptoms k) ∧
    (∃ ranked : List DrugMatch,
        ranked.Perm (buildMatches symptoms dd.rows) ∧
        List.Pairwise (fun a b : DrugMatch => b.score ≤ a.score) ranked ∧
        semanticSearchDrugs (some dd) symptoms k = ranked.take k) ∧
    (semanticSearchDrugs (some dd) symptoms k).length ≤ k ∧
    semanticSearchDrugs (some dd) symptoms = semanticSearchDrugs (some dd) symptoms 10 := by
  have hunfold : semanticSearchDrugs (some dd) symptoms k =
      ((buildMatches symptoms dd.rows).mergeSort scoreDesc).take k := by
    simp [semanticSearchDrugs, hcol]
  refine ⟨?_, ?_, ?_, ?_, rfl⟩
  · intro r hr
    obtain ⟨d, hd, hpos, hrd⟩ := mem_semanticSearchDrugs hr
    exact ⟨d, hd, hpos, hrd, by rw [hrd]; rfl⟩
  · rw [hunfold]
    exact List.Pairwise.sublist (List.take_sublist k _) (pairwise_mergeSort_scoreDesc _)
  · exact ⟨(buildMatches symptoms dd.rows).mergeSort scoreDesc,
      List.mergeSort_perm _ _, pairwise_mergeSort_scoreDesc _, hunfold⟩
  · rw [hunfold]
    exact List.length_take_le _ _

/-- Witness for C1: the spec's own example, symptoms ["fever", "headache"]
against a table holding a drug indicated for "fever and headache relief". -/
theorem semanticSearchDrugs_spec_witness :
    List.Pairwise (fun a b : DrugMatch => b.score ≤ a.score)
      (semanticSearchDrugs
        (some ⟨true, [⟨some "aspirin", some "fever and headache relief", none, none, none⟩]⟩)
        ["fever", "headache"] 10) :=
  (semanticSearchDrugs_spec
    ⟨true, [⟨some "aspirin", some "fever and headache relief", none, none, none⟩]⟩
    ["fever", "headache"] 10 rfl (by decide)).2.1

/-- C2: for every outcome of the four stages and every input, `recommend`
never propagates an exception: either the staged body succeeds and a normal
result is returned, or some stage raised and the caught exception becomes
the degraded dictionary with an empty medication list, an error field and
the error disclaimer. -/
theorem recommendCaught_no_propagation
    (extract kgSearch : List String → Except String (List String))
    (search : List String → Except String (List DrugMatch))
    (warn : List DrugMatch → Except String (List Recommendation))
    (symptoms : List String) :
    (∃ r, recommendCaught extract kgSearch search warn symptoms = RecommendResult.ok r) ∨
    (∃ msg, recommendBody extract kgSearch search warn symptoms = Except.error msg ∧
      recommendCaught extract kgSearch search warn symptoms =
        RecommendResult.degraded
          { medications := [], error := msg, disclaimer := errorDisclaimer }) := by
  unfold recommendCaught
  cases h : recommendBody extract kgSearch search warn symptoms with
  | ok v =>
    obtain ⟨recs, entities, related⟩ := v
    exact Or.inl ⟨_, rfl⟩
  | error e => exact Or.inr ⟨e, rfl, rfl⟩

/-- Witness for C2: with an entity-extraction stage that raises, the result
is the degraded dictionary, never a propagated exception. -/
theorem recommendCaught_no_propagation_witness :
    (∃ r, recommendCaught (fun _ => Except.error "boom") (fun e => Except.ok e)
        (fun _ => Except.ok []) (fun rs => Except.ok (addSafetyWarnings rs))
        ["fever"] = RecommendResult.ok r) ∨
    (∃ msg, recommendBody (fun _ => Except.error "boom") (fun e => Except.ok e)
        (fun _ => Except.ok []) (fun rs => Except.ok (addSafetyWarnings rs))
        ["fever"] = Except.error msg ∧
      recommendCaught (fun _ => Except.error "boom") (fun e => Except.ok e)
        (fun _ => Except.ok []) (fun rs => Except.ok (addSafetyWarnings rs))
        ["fever"] =
        RecommendResult.degraded
          { medications := [], error := msg, disclaimer := errorDisclaimer }) :=
  recommendCaught_no_propagation (fun _ => Except.error "boom") (fun e => Except.ok e)
    (fun _ => Except.ok []) (fun rs => Except.ok (addSafetyWarnings rs)) ["fever"]

/-- C3: every medication output by the warning step carries the four fixed
warning strings and a confidence bucket depending only on its score
(High at 0.8 and above, Medium at 0.5 and above, Low otherwise); a drug
whose indication exactly equals the single input symptom gets score 1 and
confidence High. -/
theorem addSafetyWarnings_spec (recs : List DrugMatch) (s : String) (d : DrugRecord)
    (hind : d.indication = some s) :
    (∀ r ∈ addSafetyWarnings recs,
        r.warnings = safetyWarnings ∧
        r.confidence =
          (if 4/5 ≤ r.score then "High" else if 1/2 ≤ r.score then "Medium" else "Low")) ∧
    (∃ r : Recommendation,
        addSafetyWarnings (semanticSearchDrugs (some ⟨true, [d]⟩) [s] 10) = [r] ∧
        r.score = 1 ∧ r.confidence = "High") := by
  constructor
  · intro r hr
    rw [addSafetyWarnings, List.mem_map] at hr
    obtain ⟨a, ha, rfl⟩ := hr
    exact ⟨rfl, rfl⟩
  · have hm : matchCount [s] d = 1 := matchCount_single_eq_one hind
    have hpos : 0 < matchCount [s] d := by omega
    have h10 : semanticSearchDrugs (some ⟨true, [d]⟩) [s] 10 = [drugMatch [s] d] := by
      simp [semanticSearchDrugs, buildMatches_singleton_pos hpos, List.mergeSort_singleton]
    have hscore : (drugMatch [s] d).score = 1 := by
      simp [drugMatch, hm]
    refine ⟨_, by rw [h10, addSafetyWarnings, List.map_singleton], ?_, ?_⟩
    · simpa using hscore
    · simp only [confidenceOf, hscore]
      norm_num

/-- Witness for C3: a drug indicated exactly for "fever" queried with the
single symptom "fever". -/
theorem addSafetyWarnings_spec_witness :
    ∃ r : Recommendation,
      addSafetyWarnings (semanticSearchDrugs
        (some ⟨true, [⟨some "acetaminophen", some "fever", none, none, none⟩]⟩)
        ["fever"] 10) = [r] ∧ r.score = 1 ∧ r.confidence = "High" :=
  (addSafetyWarnings_spec [] "fever"
    ⟨some "acetaminophen", some "fever", none, none, none⟩ rfl).2

/-- C4: the score's division only ever happens with a positive match count,
which forces a non-empty symptom list, so its denominator is never zero; and
when no symptom matches any drug, `recommend` returns an empty medication
list. -/
theorem recommend_no_div_by_zero (symptoms : List String) (dd : DrugsData)
    (ner : Option (List NerRow)) (kg : Option KnowledgeGraph) :
    (∀ d : DrugRecord, 0 < matchCount symptoms d → (symptoms.length : ℚ) ≠ 0) ∧
    ((∀ d ∈ dd.rows, matchCount symptoms d = 0) →
      (recommend ⟨some dd, ner, kg⟩ symptoms).medications = []) := by
  constructor
  · intro d h
    have hpos := length_pos_of_matchCount_pos h
    exact_mod_cast Nat.pos_iff_ne_zero.mp hpos
  · intro hnone
    have hfil : List.filter (fun d => decide (0 < matchCount symptoms d)) dd.rows = [] := by
      rw [List.filter_eq_nil_iff]
      intro d hd
      simp [hnone d hd]
    have hbm : buildMatches symptoms dd.rows = [] := by
      rw [buildMatches, hfil, List.map_nil]
    simp [recommend, addSafetyWarnings, semanticSearchDrugs, hbm, List.mergeSort_nil]

/-- Witness for C4: the symptom "zzz" matches nothing in a one-drug table,
and the medication list comes back empty. -/
theorem recommend_no_div_by_zero_witness :
    (recommend
      ⟨some ⟨true, [⟨some "aspirin", some "pain", none, none, none⟩]⟩, none, none⟩
      ["zzz"]).medications = [] :=
  (recommend_no_div_by_zero ["zzz"]
    ⟨true, [⟨some "aspirin", some "pain", none, none, none⟩]⟩ none none).2 (by decide)

/-- C5: with no generative client (credential absent), `query` returns the
stub answer (plus the appended disclaimer) with confidence 0 and with the
first up-to-3 retrieved context passages as sources; when the similarity
index is populated (the loaded documents are non-empty and the index returns
at least one in-range identifier), the sources are non-empty. -/
theorem query_no_credential (st : MedicalQAModel) (search : Nat → List Int)
    (llm : Except String String) (docs : List String)
    (hclient : st.groqClient = false)
    (hidx : st.indexLoaded = true) (hmod : st.modelLoaded = true)
    (hdocs : st.documents = some docs) (hne : docs ≠ [])
    (hids : search 5 ≠ [])
    (hvalid : ∀ i ∈ search 5, -1 ≤ i ∧ i < (docs.length : Int)) :
    (query st search llm).confidence = 0 ∧
    (query st search llm).sources = (retrieveContext st search).take 3 ∧
    (query st search llm).answer = stubAnswer ++ educationalDisclaimer ∧
    (query st search llm).sources ≠ [] := by
  obtain ⟨ctx, hctx, hlen⟩ := collectDocs_ok_of_valid docs (search 5) hne hvalid
  have hrc : retrieveContext st search = ctx :=
    retrieveContext_eq st search docs ctx hidx hmod hdocs hctx
  have hcne : ctx ≠ [] := by
    intro hc
    subst hc
    exact hids (List.length_eq_zero.mp hlen.symm)
  refine ⟨?_, ?_, ?_, ?_⟩
  · simp [query, generateAnswer, hclient]
  · simp [query, generateAnswer, hclient, takeSources_eq_take]
  · simp [query, generateAnswer, hclient]
  · simp only [query, generateAnswer, hclient, Bool.not_false, if_pos, hrc,
      takeSources_eq_take]
    cases ctx with
    | nil => exact absurd rfl hcne
    | cons a l => simp

/-- Witness for C5: one loaded passage, the index returning identifier 0,
and no credential. -/
theorem query_no_credential_witness :
    (query ⟨true, true, some ["passage one"], false⟩ (fun _ => [0])
      (Except.ok "unused")).confidence = 0 ∧
    (query ⟨true, true, some ["passage one"], false⟩ (fun _ => [0])
      (Except.ok "unused")).sources =
      (retrieveContext ⟨true, true, some ["passage one"], false⟩ (fun _ => [0])).take 3 ∧
    (query ⟨true, true, some ["passage one"], false⟩ (fun _ => [0])
      (Except.ok "unused")).answer = stubAnswer ++ educationalDisclaimer ∧
    (query ⟨true, true, some ["passage one"], false⟩ (fun _ => [0])
      (Except.ok "unused")).sources ≠ [] :=
  query_no_credential ⟨true, true, some ["passage one"], false⟩ (fun _ => [0])
    (Except.ok "unused") ["passage one"] rfl rfl rfl rfl (by decide) (by decide)
    (by decide)

/-- C6: knowledge-graph expansion scans the graph's nodes, matching on
case-insensitive substring containment in the node identifier or any
string-valued attribute; each returned concept is one of the first 5
neighbors of some node matching some input entity; the final list has no
duplicates and at most 10 elements; with no graph loaded it is empty. -/
theorem searchKnowledgeGraph_spec (g : KnowledgeGraph) (entities : List String) :
    (searchKnowledgeGraph (some g) entities).Nodup ∧
    (searchKnowledgeGraph (some g) entities).length ≤ 10 ∧
    (∀ c ∈ searchKnowledgeGraph (some g) entities,
        ∃ e ∈ entities, ∃ nd ∈ g.nodes,
          nodeMatches e nd = true ∧ c ∈ (g.adj nd.id).take 5) ∧
    searchKnowledgeGraph none entities = [] := by
  refine ⟨?_, ?_, ?_, rfl⟩
  · exact List.Nodup.sublist (List.take_sublist 10 _) (List.nodup_dedup _)
  · exact List.length_take_le _ _
  · intro c hc
    have h1 : c ∈ (entities.flatMap fun e =>
        g.nodes.flatMap fun nd =>
          if nodeMatches e nd then (g.adj nd.id).take 5 else []) :=
      List.mem_dedup.mp (List.take_subset 10 _ hc)
    rw [List.mem_flatMap] at h1
    obtain ⟨e, he, h2⟩ := h1
    rw [List.mem_flatMap] at h2
    obtain ⟨nd, hnd, h3⟩ := h2
    by_cases hm : nodeMatches e nd
    · rw [if_pos hm] at h3
      exact ⟨e, he, nd, hnd, hm, h3⟩
    · rw [if_neg hm] at h3
      simp at h3

/-- Witness for C6: a one-node graph queried with the entity "fever". -/
theorem searchKnowledgeGraph_spec_witness :
    searchKnowledgeGraph none ["fever"] = [] :=
  (searchKnowledgeGraph_spec ⟨[⟨"fever", []⟩], fun _ => []⟩ ["fever"]).2.2.2

/-- C7: the health operation reports "healthy" exactly when both sub-models
loaded, "partial" in every other case, and reports each sub-model's load
status alongside. -/
theorem getHealthStatus_spec :
    ∀ qaLoaded recLoaded : Bool,
      ((getHealthStatus qaLoaded recLoaded).serviceStatus = "healthy" ↔
        (qaLoaded = true ∧ recLoaded = true)) ∧
      ((getHealthStatus qaLoaded recLoaded).serviceStatus = "partial" ↔
        ¬(qaLoaded = true ∧ recLoaded = true)) ∧
      ((getHealthStatus qaLoaded recLoaded).qaModel = "loaded" ↔ qaLoaded = true) ∧
      ((getHealthStatus qaLoaded recLoaded).recommendationModel = "loaded" ↔
        recLoaded = true) := by
  decide

/-- Witness for C7: with only the QA model loaded the overall status is
"partial". -/
theorem getHealthStatus_spec_witness :
    (getHealthStatus true false).serviceStatus = "partial" :=
  (getHealthStatus_spec true false).2.1.mpr (by simp)

/-- C8: with no entity table, or an empty one, entity extraction returns []
and so does the extracted-entities field of `recommend`; in general every
returned entity occurs (case-insensitively: both sides lower-cased) as a
substring of the space-joined symptom text, and the list has no duplicates. -/
theorem extractMedicalEntities_spec (symptoms : List String) :
    extractMedicalEntities none symptoms = [] ∧
    extractMedicalEntities (some []) symptoms = [] ∧
    (∀ (dd : Option DrugsData) (kg : Option KnowledgeGraph),
        (recommend ⟨dd, none, kg⟩ symptoms).extractedEntities = [] ∧
        (recommend ⟨dd, some [], kg⟩ symptoms).extractedEntities = []) ∧
    (∀ ner : Option (List NerRow),
        (extractMedicalEntities ner symptoms).Nodup ∧
        ∀ e ∈ extractMedicalEntities ner symptoms,
          substrB e (pyLower (String.intercalate " " symptoms)) = true) := by
  have hnil : extractMedicalEntities (some []) symptoms = [] := by
    simp [extractMedicalEntities, List.dedup]
  refine ⟨rfl, hnil, fun dd kg => ⟨rfl, by simp [recommend, hnil]⟩, fun ner => ⟨?_, ?_⟩⟩
  · cases ner with
    | none => exact List.nodup_nil
    | some rows => exact List.nodup_dedup _
  · intro e he
    cases ner with
    | none => simp [extractMedicalEntities] at he
    | some rows =>
      simp only [extractMedicalEntities, List.mem_dedup, List.mem_filterMap] at he
      obtain ⟨r, hr, heq⟩ := he
      cases hre : r.entity with
      | none => rw [hre] at heq; simp at heq
      | some ent =>
        cases hrl : r.label with
        | none => rw [hre, hrl] at heq; simp at heq
        | some lab =>
          rw [hre, hrl] at heq
          simp only [] at heq
          by_cases hsub : substrB (pyLower ent)
              (pyLower (String.intercalate " " symptoms)) = true
          · rw [if_pos hsub] at heq
            cases heq
            exact hsub
          · rw [if_neg hsub] at heq
            cases heq

/-- Witness for C8 at a concrete symptom list. -/
theorem extractMedicalEntities_spec_witness :
    extractMedicalEntities none ["fever", "headache"] = [] :=
  (extractMedicalEntities_spec ["fever", "headache"]).1

/-- C9: `query` consults the similarity index only for the top 5 nearest
vectors (so, given the index's contract of returning at most k identifiers,
the retrieved context has at most 5 passages), and on the successful path,
the no-credential stub path and the error path alike the returned sources
are the first at-most-3 retrieved passages. -/
theorem query_sources_bound (st : MedicalQAModel) (search : Nat → List Int)
    (llm : Except String String)
    (hsearch : ∀ k, (search k).length ≤ k) :
    (query st search llm).sources.length ≤ 3 ∧
    (retrieveContext st search).length ≤ 5 ∧
    (∀ (hasClient : Bool) (context : List String),
        (generateAnswer hasClient llm context).sources.length ≤ 3) := by
  have hgen : ∀ (b : Bool) (c : List String),
      (generateAnswer b llm c).sources.length ≤ 3 := by
    intro b c
    have hts : (takeSources c).length ≤ 3 := by
      rw [takeSources_eq_take]
      exact List.length_take_le 3 c
    cases b with
    | false => simpa [generateAnswer] using hts
    | true =>
      cases llm with
      | ok text => simpa [generateAnswer] using hts
      | error e => simpa [generateAnswer] using hts
  refine ⟨?_, retrieveContext_length_le st search 5 (hsearch 5), hgen⟩
  have hq : (query st search llm).sources =
      (generateAnswer st.groqClient llm (retrieveContext st search)).sources := by
    simp [query]
  rw [hq]
  exact hgen _ _

/-- Witness for C9 with an index returning no identifiers. -/
theorem query_sources_bound_witness :
    (query ⟨false, false, none, false⟩ (fun _ => []) (Except.ok "text")).sources.length
      ≤ 3 :=
  (query_sources_bound ⟨false, false, none, false⟩ (fun _ => []) (Except.ok "text")
    (fun k => by simp)).1

/-- C10: every medication returned by the scoring step has a score strictly
above 0 and at most 1: the match count is positive for every surviving
record and never exceeds the symptom count. -/
theorem semanticSearchDrugs_score_bounds (symptoms : List String) (dd : DrugsData)
    (k : Nat) (hne : symptoms ≠ []) :
    ∀ r ∈ semanticSearchDrugs (some dd) symptoms k, 0 < r.score ∧ r.score ≤ 1 := by
  intro r hr
  obtain ⟨d, hd, hpos, hrd⟩ := mem_semanticSearchDrugs hr
  subst hrd
  have hlen : 0 < symptoms.length := length_pos_of_matchCount_pos hpos
  simp only [drugMatch]
  constructor
  · exact div_pos (by exact_mod_cast hpos) (by exact_mod_cast hlen)
  · rw [div_le_one (by exact_mod_cast hlen)]
    exact_mod_cast matchCount_le symptoms d

/-- Witness for C10: the single-symptom, single-drug instance where the
returned score is exactly 1. -/
theorem semanticSearchDrugs_score_bounds_witness :
    0 < (drugMatch ["fever"]
      ⟨some "acetaminophen", some "fever", none, none, none⟩).score ∧
    (drugMatch ["fever"]
      ⟨some "acetaminophen", some "fever", none, none, none⟩).score ≤ 1 :=
  semanticSearchDrugs_score_bounds ["fever"]
    ⟨true, [⟨some "acetaminophen", some "fever", none, none, none⟩]⟩ 10 (by decide)
    (drugMatch ["fever"] ⟨some "acetaminophen", some "fever", none, none, none⟩)
    (mem_semanticSearchDrugs_singleton (by decide))

end MedAI
